import Mathlib

/-
Shallow embedding of the VoltCast production forecasting engine
(src/app/services.py, class ForecastingService), together with proofs of
the spec's structural and numeric properties.

Modelling conventions:
* Python floats are modelled as exact rationals (ℚ).
* Python round(x, 2) is modelled as rounding to an integer number of
  hundredths; ties are rounded half-up (Python uses the float value's
  nearest-even tie rule; no property below depends on a tie case).
* A pandas Series is modelled as a list of (timestamp, value) pairs;
  iloc slicing is positional drop/take, and iterating a Series yields
  its values, as enumerate(day_hours) does in the source.
* Calendar datetimes are modelled by an integer day number plus an
  hour-of-day; datetime.now(timezone.utc) truncated to midnight becomes
  an explicit forecast_start argument, making the clock read visible.
-/

/-- Model of Python round(x, 2): round to two decimal places
(half-up tie rule, see `round2_eq_round`). -/
def round2 (q : ℚ) : ℚ := ((q * 100 + 1 / 2).floor : ℤ) / 100

/-- The function round2 is rounding to the nearest hundredth in the sense
of Mathlib's `round`. -/
lemma round2_eq_round (q : ℚ) : round2 q = (round (q * 100) : ℤ) / 100 := by
  rw [round_eq]; rfl

/-- PV system configuration record (src/app/models.py, class PVSystem). -/
structure PVSystem where
  latitude : ℚ
  longitude : ℚ
  kwp : ℚ
  tilt : ℚ
  azimuth : ℚ
deriving DecidableEq

/-- One row of the canonical hourly weather table produced by the weather
adapter: a timestamp plus ghi, dni, dhi, temp_air (°C) and wind_speed. -/
structure WeatherSample where
  ts : ℤ
  ghi : ℚ
  dni : ℚ
  dhi : ℚ
  temp_air : ℚ
  wind_speed : ℚ
deriving DecidableEq

/-- The engine's power series: (timestamp, power_kw) pairs, mirroring the
pd.Series returned by predict_production. -/
abbrev PVPowerSeries := List (ℤ × ℚ)

/-- Modelled from the spec: pvlib.pvsystem.pvwatts_dc, the PVWatts-style DC
power model called at src/app/services.py line 113, with the formula given
in spec section 4.2:
dc_power = pdc0 * (g_poa / 1000) * (1 + gamma * (temp_cell - 25)).
pvlib is an external library, not part of src/. -/
def pvwatts_dc (g_poa_effective temp_cell pdc0 gamma_pdc : ℚ) : ℚ :=
  pdc0 * (g_poa_effective / 1000) * (1 + gamma_pdc * (temp_cell - 25))

/-- ForecastingService.predict_production (src/app/services.py lines 70-126).
The per-row solar-position and plane-of-array transposition
(pvlib.solarposition.get_solarposition and
pvlib.irradiance.get_total_irradiance, external library code applied
index-wise) is abstracted as the pointwise function `poa_global`, which may
depend on the whole weather row; the system's
latitude/longitude/tilt/azimuth are fixed within one call, so any concrete
transposition model is an instance of this parameter. The rest follows the
source: temp_cell = temp_air + 3, pdc0 = kwp * 1000, gamma = -0.003,
inverter efficiency 0.95, W → kW division by 1000, and the empty-input
guard returning an empty series. -/
def predict_production (pv_system : PVSystem) (poa_global : WeatherSample → ℚ)
    (weather_df : List WeatherSample) : PVPowerSeries :=
  if weather_df.isEmpty then []
  else
    weather_df.map (fun w =>
      let dc_power := pvwatts_dc (poa_global w) (w.temp_air + 3)
        (pv_system.kwp * 1000) (-(3 / 1000))
      let ac_power := dc_power * (95 / 100)
      (w.ts, ac_power / 1000))

/-- ForecastingService.calculate_energy_kwh (src/app/services.py lines
128-139): power_series.sum(), i.e. the sum of the series' values. -/
def calculate_energy_kwh (power_series : PVPowerSeries) : ℚ :=
  (power_series.map Prod.snd).sum

/-- One hourly entry of the report: the displayed timestamp, split into its
date part (a day number) and its hour-of-day, plus the rounded power. -/
structure HourEntry where
  ts_day : ℤ
  ts_hour : ℕ
  power_kw : ℚ
deriving DecidableEq

/-- One day bucket of the report. -/
structure DayBucket where
  day : ℤ
  daily_energy_kwh : ℚ
  forecast : List HourEntry
deriving DecidableEq

/-- The formatted forecast response (the dict built at
src/app/services.py lines 192-199). -/
structure ForecastReport where
  system_id : ℤ
  total_energy_kwh : ℚ
  forecast_from : ℤ
  forecast_to : ℤ
  forecast_hours : ℕ
  forecast_list : List DayBucket
deriving DecidableEq

/-- ForecastingService.format_forecast_response (src/app/services.py lines
141-199). `forecast_start` is the value of datetime.now(timezone.utc)
truncated to midnight (line 160), modelled as a day number and passed
explicitly so that the clock read is visible in the model. The length
check raises ValueError in the source and returns Except.error here. -/
def format_forecast_response (system_id : ℤ) (power_series : PVPowerSeries)
    (forecast_start : ℤ) : Except String ForecastReport :=
  if 168 < power_series.length then
    Except.error ("Maximum 168 hours allowed, got " ++ toString power_series.length)
  else
    let total_energy_kwh := calculate_energy_kwh power_series
    let forecast_list := (List.range 7).map (fun day_index =>
      let day_hours := (power_series.drop (day_index * 24)).take 24
      let day_date := forecast_start + (day_index : ℤ)
      let daily_energy := (day_hours.map Prod.snd).sum
      let daily_forecasts := day_hours.enum.map (fun p =>
        { ts_day := day_date, ts_hour := p.1, power_kw := round2 p.2.2 : HourEntry })
      { day := day_date, daily_energy_kwh := round2 daily_energy,
        forecast := daily_forecasts : DayBucket })
    Except.ok
      { system_id := system_id
        total_energy_kwh := round2 total_energy_kwh
        forecast_from := forecast_start
        forecast_to := forecast_start + 7
        forecast_hours := power_series.length
        forecast_list := forecast_list }

/-- The i-th day bucket of a report (with a default for out-of-range i). -/
def bucketD (r : ForecastReport) (i : ℕ) : DayBucket :=
  r.forecast_list.getD i ⟨0, 0, []⟩

/-- On an accepted input (length ≤ 168) the report is the explicit record
below: validation passes and each bucket is built from its positional
24-element slice. -/
lemma format_ok (system_id : ℤ) (s : PVPowerSeries) (t : ℤ)
    (h : s.length ≤ 168) :
    format_forecast_response system_id s t = Except.ok
      { system_id := system_id
        total_energy_kwh := round2 (calculate_energy_kwh s)
        forecast_from := t
        forecast_to := t + 7
        forecast_hours := s.length
        forecast_list := (List.range 7).map (fun (day_index : ℕ) =>
          { day := t + (day_index : ℤ)
            daily_energy_kwh :=
              round2 (((s.drop (day_index * 24)).take 24).map Prod.snd).sum
            forecast := ((s.drop (day_index * 24)).take 24).enum.map (fun p =>
              { ts_day := t + (day_index : ℤ), ts_hour := p.1,
                power_kw := round2 p.2.2 }) }) } := by
  unfold format_forecast_response
  rw [if_neg (by omega)]

/-- Indexing into a map over List.range. -/
lemma getD_map_range {α : Type} (f : ℕ → α) (n i : ℕ) (hi : i < n) (d : α) :
    ((List.range n).map f).getD i d = f i := by
  rw [List.getD_eq_getElem?_getD, List.getElem?_map, List.getElem?_range hi]
  rfl

/-- The i-th bucket of an accepted report, for i < 7. -/
lemma bucketD_format_ok (system_id : ℤ) (s : PVPowerSeries) (t : ℤ)
    (h : s.length ≤ 168) (r : ForecastReport)
    (hr : format_forecast_response system_id s t = Except.ok r)
    (i : ℕ) (hi : i < 7) :
    bucketD r i =
      { day := t + (i : ℤ)
        daily_energy_kwh := round2 (((s.drop (i * 24)).take 24).map Prod.snd).sum
        forecast := ((s.drop (i * 24)).take 24).enum.map (fun p =>
          { ts_day := t + (i : ℤ), ts_hour := p.1, power_kw := round2 p.2.2 }) } := by
  rw [format_ok system_id s t h] at hr
  cases hr
  unfold bucketD
  rw [getD_map_range _ 7 i hi]

/-- Rounding to two decimals moves a rational by at most half a cent. -/
lemma abs_round2_sub (q : ℚ) : |round2 q - q| ≤ 1 / 200 := by
  rw [round2_eq_round]
  have h := abs_sub_round (q * 100)
  rw [abs_sub_comm] at h
  have he : (round (q * 100) : ℚ) / 100 - q = ((round (q * 100) : ℚ) - q * 100) / 100 := by
    ring
  rw [he, abs_div, abs_of_pos (by norm_num : (0:ℚ) < 100)]
  linarith

/-- Summing the n consecutive k-blocks of a list recovers the whole sum,
provided the list is no longer than n * k. -/
lemma sum_range_block_sums (k n : ℕ) (l : List ℚ) (h : l.length ≤ n * k) :
    ((List.range n).map (fun i => ((l.drop (i * k)).take k).sum)).sum = l.sum := by
  induction n generalizing l with
  | zero =>
    have hl : l = [] := List.eq_nil_of_length_eq_zero (by omega)
    simp [hl]
  | succ n ih =>
    rw [Nat.succ_mul] at h
    rw [List.range_succ_eq_map, List.map_cons, List.sum_cons, List.map_map]
    have hcomp : ((fun i => ((l.drop (i * k)).take k).sum) ∘ Nat.succ)
        = fun i => (((l.drop k).drop (i * k)).take k).sum := by
      funext i
      simp only [Function.comp_apply]
      rw [List.drop_drop]
      congr 2
      rw [Nat.succ_mul, Nat.add_comm]
    rw [hcomp, ih (l.drop k) (by rw [List.length_drop]; omega)]
    simp only [Nat.zero_mul, List.drop_zero]
    rw [← List.sum_append, List.take_append_drop]

/-- If f and g are pointwise within c of each other, their sums over
List.range n are within n * c. -/
lemma abs_map_range_sum_sub (f g : ℕ → ℚ) (c : ℚ) (n : ℕ)
    (h : ∀ i, |f i - g i| ≤ c) :
    |((List.range n).map f).sum - ((List.range n).map g).sum| ≤ n * c := by
  induction n with
  | zero => simp
  | succ n ih =>
    rw [List.range_succ]
    simp only [List.map_append, List.sum_append, List.map_cons, List.sum_cons,
      List.map_nil, List.sum_nil, add_zero]
    have h1 := h n
    have h2 := abs_add (((List.range n).map f).sum - ((List.range n).map g).sum)
      (f n - g n)
    have he : ((List.range n).map f).sum + f n - (((List.range n).map g).sum + g n)
        = (((List.range n).map f).sum - ((List.range n).map g).sum) + (f n - g n) := by
      ring
    rw [he]
    push_cast
    linarith

/-- A map over List.enum that uses only the position and the pair's value
factors through the value projection. -/
lemma enum_map_value {α β γ : Type} (l l' : List (α × β))
    (hv : l.map Prod.snd = l'.map Prod.snd) (g : ℕ → β → γ) :
    l.enum.map (fun p => g p.1 p.2.2) = l'.enum.map (fun p => g p.1 p.2.2) := by
  have key : ∀ (m : List (α × β)), m.enum.map (fun p => g p.1 p.2.2)
      = ((m.map Prod.snd).enum).map (fun q => g q.1 q.2) := by
    intro m
    rw [List.enum_map, List.map_map]
    rfl
  rw [key l, key l', hv]

/-- format_forecast_response reads its input series only through positions
and power values: two series with the same values in the same order (and
any timestamps) produce identical reports. -/
lemma format_values_only (system_id : ℤ) (s s' : PVPowerSeries) (t : ℤ)
    (hv : s.map Prod.snd = s'.map Prod.snd) :
    format_forecast_response system_id s t
      = format_forecast_response system_id s' t := by
  have hlen : s.length = s'.length := by
    simpa using congrArg List.length hv
  have hslice : ∀ i : ℕ, ((s.drop (i * 24)).take 24).map Prod.snd
      = ((s'.drop (i * 24)).take 24).map Prod.snd := by
    intro i
    have hdt := congrArg (fun l => (l.drop (i * 24)).take 24) hv
    simpa using hdt
  unfold format_forecast_response
  rw [hlen]
  by_cases hc : 168 < s'.length
  · rw [if_pos hc, if_pos hc]
  · rw [if_neg hc, if_neg hc]
    have hcalc : calculate_energy_kwh s = calculate_energy_kwh s' := by
      unfold calculate_energy_kwh
      rw [hv]
    refine congrArg Except.ok ?_
    congr 1
    · rw [hcalc]
    · refine List.map_congr_left fun i _ => ?_
      dsimp only
      congr 1
      · rw [hslice i]
      · exact enum_map_value _ _ (hslice i)
          (fun hour v =>
            ({ ts_day := t + (i : ℤ), ts_hour := hour, power_kw := round2 v } : HourEntry))

/-- Rounding a zero sum gives exactly 0. -/
lemma round2_zero : round2 0 = 0 := by
  rw [round2_eq_round]
  norm_num

/-- C1: for every power series s with len(s) ≤ 168,
format_forecast_response returns a report whose forecast_list has exactly
7 day buckets, and every bucket i whose positional slice
s[24*i : 24*i+24] is empty has an empty hour list and daily_energy_kwh = 0
(in particular, for empty s all 7 buckets are empty). -/
theorem report_shape_seven_buckets (system_id : ℤ) (s : PVPowerSeries) (t : ℤ)
    (h : s.length ≤ 168) :
    ∃ r, format_forecast_response system_id s t = Except.ok r ∧
      r.forecast_list.length = 7 ∧
      ∀ i : ℕ, i < 7 → (s.drop (24 * i)).take 24 = [] →
        (bucketD r i).forecast = [] ∧ (bucketD r i).daily_energy_kwh = 0 := by
  refine ⟨_, format_ok system_id s t h, by simp, ?_⟩
  intro i hi hempty
  rw [Nat.mul_comm] at hempty
  rw [bucketD_format_ok system_id s t h _ (format_ok system_id s t h) i hi]
  dsimp only
  rw [hempty]
  refine ⟨rfl, ?_⟩
  show round2 (([] : PVPowerSeries).map Prod.snd).sum = 0
  simpa using round2_zero

/-- Witness for C1 at the empty series. -/
theorem report_shape_seven_buckets_witness :
    ([] : PVPowerSeries).length ≤ 168 ∧
    (∃ r, format_forecast_response 5 [] 0 = Except.ok r ∧
      r.forecast_list.length = 7 ∧
      ∀ i : ℕ, i < 7 → (([] : PVPowerSeries).drop (24 * i)).take 24 = [] →
        (bucketD r i).forecast = [] ∧ (bucketD r i).daily_energy_kwh = 0) :=
  ⟨by decide, report_shape_seven_buckets 5 [] 0 (by decide)⟩

/-- C2: format_forecast_response fails validation if and only if the input
series has more than 168 samples: it returns a report exactly when
len(s) ≤ 168 (168 itself included) and an error exactly when len(s) > 168
(169 included). -/
theorem overflow_rejection (system_id : ℤ) (s : PVPowerSeries) (t : ℤ) :
    ((∃ r, format_forecast_response system_id s t = Except.ok r) ↔ s.length ≤ 168) ∧
    ((∃ e, format_forecast_response system_id s t = Except.error e) ↔ 168 < s.length) := by
  by_cases hc : 168 < s.length
  · unfold format_forecast_response
    rw [if_pos hc]
    refine ⟨⟨fun hex => ?_, fun hle => by omega⟩, ⟨fun _ => hc, fun _ => ⟨_, rfl⟩⟩⟩
    obtain ⟨r, hr⟩ := hex
    simp at hr
  · rw [format_ok system_id s t (by omega)]
    refine ⟨⟨fun _ => by omega, fun _ => ⟨_, rfl⟩⟩, ⟨fun hex => ?_, fun hgt => by omega⟩⟩
    obtain ⟨e, he⟩ := hex
    simp at he

/-- C4: predict_production is index-aligned 1:1 with the weather table:
same length, same timestamps in the same order, and empty input gives the
empty series. Stated for every configuration and every pointwise POA
transposition model. -/
theorem predict_production_length_timestamps (pv_system : PVSystem)
    (poa_global : WeatherSample → ℚ) (weather_df : List WeatherSample) :
    (predict_production pv_system poa_global weather_df).length = weather_df.length ∧
    (predict_production pv_system poa_global weather_df).map Prod.fst
      = weather_df.map WeatherSample.ts ∧
    predict_production pv_system poa_global [] = [] := by
  rcases weather_df with _ | ⟨w, ws⟩
  · exact ⟨rfl, rfl, rfl⟩
  · refine ⟨?_, ?_, rfl⟩
    · simp [predict_production]
    · show List.map Prod.fst (predict_production pv_system poa_global (w :: ws))
        = List.map WeatherSample.ts (w :: ws)
      simp [predict_production, List.map_map]

/-- C7 counterexample: the claim quantifies over every POA irradiance
value, but at g_poa = 0 the PVWatts DC power is 0 at every cell
temperature (with pdc0 = 5000 > 0, temperatures 0 < 10 and gamma = -0.003),
so raising the temperature does not strictly decrease it. -/
theorem pvwatts_dc_not_strictly_decreasing_at_zero_poa :
    (0:ℚ) < 5000 ∧ (0:ℚ) < 10 ∧
    ¬ pvwatts_dc 0 10 5000 (-(3 / 1000)) < pvwatts_dc 0 0 5000 (-(3 / 1000)) := by
  refine ⟨by norm_num, by norm_num, ?_⟩
  unfold pvwatts_dc
  norm_num

/-- C7 (amended): for every strictly positive POA irradiance g_poa,
strictly positive pdc0, and cell temperatures t1 < t2, the PVWatts DC
power dc = pdc0 * (g_poa / 1000) * (1 + gamma * (t - 25)) with
gamma = -0.003 is strictly smaller at t2 than at t1. -/
theorem pvwatts_dc_temp_strictly_decreasing (g_poa pdc0 t1 t2 : ℚ)
    (hg : 0 < g_poa) (hp : 0 < pdc0) (ht : t1 < t2) :
    pvwatts_dc g_poa t2 pdc0 (-(3 / 1000)) < pvwatts_dc g_poa t1 pdc0 (-(3 / 1000)) := by
  unfold pvwatts_dc
  nlinarith [mul_pos hp hg]

/-- Witness for the amended C7 at g_poa = 1000, pdc0 = 5000, t1 = 0, t2 = 10. -/
theorem pvwatts_dc_temp_strictly_decreasing_witness :
    (0:ℚ) < 1000 ∧ (0:ℚ) < 5000 ∧ (0:ℚ) < 10 ∧
    pvwatts_dc 1000 10 5000 (-(3 / 1000)) < pvwatts_dc 1000 0 5000 (-(3 / 1000)) :=
  ⟨by norm_num, by norm_num, by norm_num,
    pvwatts_dc_temp_strictly_decreasing 1000 5000 0 10 (by norm_num) (by norm_num)
      (by norm_num)⟩

/-- Horizontal (tilt 0) 5 kWp system used in the C8 counterexample; for a
horizontal panel the plane-of-array irradiance is the global horizontal
irradiance itself. -/
def cexSystem : PVSystem :=
  { latitude := 52, longitude := 13, kwp := 5, tilt := 0, azimuth := 180 }

/-- Degenerate weather row with negative irradiance (ghi = -100 W/m²),
the case the spec flags as producing negative output. -/
def cexWeather : WeatherSample :=
  { ts := 0, ghi := -100, dni := 0, dhi := -100, temp_air := 20, wind_speed := 3 }

/-- C8 counterexample: predict_production does not clamp, so the
degenerate negative-irradiance row yields a strictly negative AC power
sample (-0.47785 kW). -/
theorem predict_production_negative_sample :
    ((predict_production cexSystem (fun w => w.ghi) [cexWeather]).getD 0 (0, 0)).2 < 0 := by
  show ((predict_production cexSystem (fun w => w.ghi) [cexWeather]).getD 0 (0, 0)).2 < 0
  simp only [predict_production, pvwatts_dc, cexSystem, cexWeather, List.isEmpty_cons,
    List.map_cons, List.map_nil, List.getD]
  norm_num

/-- C8 (amended): whenever the configured peak power is nonnegative, the
POA irradiance of every row is nonnegative and every air temperature is
moderate (≤ 100 °C), every sample of the returned power series is
nonnegative. Unconditional nonnegativity fails because the model does not
clamp negative results. -/
theorem predict_production_nonneg (pv_system : PVSystem)
    (poa_global : WeatherSample → ℚ) (weather_df : List WeatherSample)
    (hk : 0 ≤ pv_system.kwp)
    (hpoa : ∀ w ∈ weather_df, 0 ≤ poa_global w)
    (htemp : ∀ w ∈ weather_df, w.temp_air ≤ 100) :
    ∀ p ∈ predict_production pv_system poa_global weather_df, 0 ≤ p.2 := by
  intro p hp
  unfold predict_production at hp
  by_cases he : weather_df.isEmpty
  · rw [if_pos he] at hp
    simp at hp
  · rw [if_neg he] at hp
    simp only [List.mem_map] at hp
    obtain ⟨w, hw, rfl⟩ := hp
    have h1 := hpoa w hw
    have h2 := htemp w hw
    show 0 ≤ pvwatts_dc (poa_global w) (w.temp_air + 3) (pv_system.kwp * 1000)
      (-(3 / 1000)) * (95 / 100) / 1000
    unfold pvwatts_dc
    have hfac : 0 ≤ 1 + -(3 / 1000) * (w.temp_air + 3 - 25) := by nlinarith
    have hbase : 0 ≤ pv_system.kwp * 1000 * (poa_global w / 1000) := by positivity
    positivity

/-- Clear-sky weather row used in the C8 witness. -/
def goodWeather : WeatherSample :=
  { ts := 0, ghi := 800, dni := 600, dhi := 100, temp_air := 25, wind_speed := 3 }

/-- Witness for the amended C8 at a clear-sky row on the horizontal system. -/
theorem predict_production_nonneg_witness :
    0 ≤ cexSystem.kwp ∧ (∀ w ∈ [goodWeather], 0 ≤ w.ghi) ∧
    (∀ w ∈ [goodWeather], w.temp_air ≤ 100) ∧
    ∀ p ∈ predict_production cexSystem (fun w => w.ghi) [goodWeather], 0 ≤ p.2 :=
  ⟨by norm_num [cexSystem], by norm_num [goodWeather], by norm_num [goodWeather],
    predict_production_nonneg cexSystem (fun w => w.ghi) [goodWeather]
      (by norm_num [cexSystem]) (by norm_num [goodWeather]) (by norm_num [goodWeather])⟩

/-- C9 counterexample: format_forecast_response reads the current UTC
clock (datetime.now at src/app/services.py line 160), so two invocations
with equal arguments but different clock days return different reports —
here forecast_from differs (day 0 vs day 1) on the same empty series. -/
theorem format_forecast_response_reads_clock :
    format_forecast_response 1 [] 0 ≠ format_forecast_response 1 [] 1 := by
  rw [format_ok 1 [] 0 (by decide), format_ok 1 [] 1 (by decide)]
  intro hEq
  have h1 : (0 : ℤ) = 1 :=
    congrArg ForecastReport.forecast_from (Except.ok.inj hEq)
  exact absurd h1 (by decide)

/-- The clock-independent numeric content of a report: system id, total
energy, hour count, and per bucket the daily energy and the (hour, power)
entries — everything except the calendar labels. -/
def reportNumericContent (r : ForecastReport) :
    ℤ × ℚ × ℕ × List (ℚ × List (ℕ × ℚ)) :=
  (r.system_id, r.total_energy_kwh, r.forecast_hours,
    r.forecast_list.map (fun b =>
      (b.daily_energy_kwh, b.forecast.map (fun e => (e.ts_hour, e.power_kw)))))

/-- C9 (amended): every engine operation is a deterministic function of
its inputs; format_forecast_response additionally depends on the current
UTC day, which affects only the calendar labels: the numeric content of
the report is identical for every clock value (and the error outcome is
clock-independent as well). -/
theorem engine_numeric_content_clock_independent (system_id : ℤ)
    (s : PVPowerSeries) (t1 t2 : ℤ) :
    Except.map reportNumericContent (format_forecast_response system_id s t1)
      = Except.map reportNumericContent (format_forecast_response system_id s t2) := by
  by_cases hc : 168 < s.length
  · unfold format_forecast_response
    rw [if_pos hc, if_pos hc]
  · rw [format_ok system_id s t1 (by omega), format_ok system_id s t2 (by omega)]
    simp only [Except.map, reportNumericContent, List.map_map, Except.ok.injEq,
      Prod.mk.injEq, true_and]
    refine List.map_congr_left fun i _ => ?_
    simp only [Function.comp_apply, List.map_map, Prod.mk.injEq]
    exact ⟨trivial, rfl⟩

/-- C5: calculate_energy_kwh is the exact, unrounded sum of the power
values (0 on the empty series), and the report's total_energy_kwh is that
exact sum rounded to 2 decimals only at output. -/
theorem calculate_energy_exact_sum (system_id : ℤ) (s : PVPowerSeries) (t : ℤ)
    (h : s.length ≤ 168) :
    calculate_energy_kwh s = (s.map Prod.snd).sum ∧
    calculate_energy_kwh [] = 0 ∧
    ∃ r, format_forecast_response system_id s t = Except.ok r ∧
      r.total_energy_kwh = round2 ((s.map Prod.snd).sum) :=
  ⟨rfl, rfl, _, format_ok system_id s t h, rfl⟩

/-- Witness for C5 at a one-sample series. -/
theorem calculate_energy_exact_sum_witness :
    ([(0, 1)] : PVPowerSeries).length ≤ 168 ∧
    (calculate_energy_kwh [(0, 1)] = (([(0, 1)] : PVPowerSeries).map Prod.snd).sum ∧
     calculate_energy_kwh [] = 0 ∧
     ∃ r, format_forecast_response 7 [(0, 1)] 0 = Except.ok r ∧
       r.total_energy_kwh = round2 ((([(0, 1)] : PVPowerSeries).map Prod.snd).sum)) :=
  ⟨by decide, calculate_energy_exact_sum 7 [(0, 1)] 0 (by decide)⟩

/-- Rounding integer-valued rationals is the identity. -/
lemma round2_intCast (n : ℤ) : round2 (n : ℚ) = n := by
  rw [round2_eq_round]
  have he : ((n : ℚ) * 100) = ((n * 100 : ℤ) : ℚ) := by push_cast; ring
  rw [he, round_intCast]
  push_cast
  field_simp

/-- C3: bucketing is positional. For every series s with len(s) ≤ 168,
bucket i holds exactly the slice s[24*i : 24*i+24] in order, each hour
entry's displayed hour-of-day being its position in the slice; the report
depends on the input only through positions and power values, never
through the input timestamps; and concretely, for s = [1.0, 2.0, 3.0]
(any timestamps a b c) the report has total_energy_kwh = 6,
forecast_hours = 3, bucket 0 holding powers 1, 2, 3 at hours 0, 1, 2, and
buckets 1-6 empty. -/
theorem positional_bucketing (system_id : ℤ) (s : PVPowerSeries) (t : ℤ)
    (h : s.length ≤ 168) :
    (∃ r, format_forecast_response system_id s t = Except.ok r ∧
      ∀ i : ℕ, i < 7 →
        (bucketD r i).forecast = ((s.drop (24 * i)).take 24).enum.map (fun p =>
          { ts_day := t + (i : ℤ), ts_hour := p.1, power_kw := round2 p.2.2 })) ∧
    (∀ s' : PVPowerSeries, s.map Prod.snd = s'.map Prod.snd →
      format_forecast_response system_id s t = format_forecast_response system_id s' t) ∧
    (∀ a b c : ℤ,
      ∃ r, format_forecast_response 123 [(a, 1), (b, 2), (c, 3)] t = Except.ok r ∧
        r.total_energy_kwh = 6 ∧ r.forecast_hours = 3 ∧
        (bucketD r 0).forecast =
          [{ ts_day := t, ts_hour := 0, power_kw := 1 },
           { ts_day := t, ts_hour := 1, power_kw := 2 },
           { ts_day := t, ts_hour := 2, power_kw := 3 }] ∧
        ∀ i : ℕ, 1 ≤ i → i < 7 → (bucketD r i).forecast = []) := by
  refine ⟨⟨_, format_ok system_id s t h, ?_⟩, ?_, ?_⟩
  · intro i hi
    rw [bucketD_format_ok system_id s t h _ (format_ok system_id s t h) i hi]
    rw [Nat.mul_comm 24 i]
  · intro s' hv
    exact format_values_only system_id s s' t hv
  · intro a b c
    have h3 : ([(a, 1), (b, 2), (c, 3)] : PVPowerSeries).length ≤ 168 := by simp
    refine ⟨_, format_ok 123 _ t h3, ?_, rfl, ?_, ?_⟩
    · show round2 (calculate_energy_kwh [(a, 1), (b, 2), (c, 3)]) = 6
      have hsum : calculate_energy_kwh [(a, 1), (b, 2), (c, 3)] = 6 := by
        unfold calculate_energy_kwh
        norm_num
      rw [hsum]
      exact_mod_cast round2_intCast 6
    · rw [bucketD_format_ok 123 _ t h3 _ (format_ok 123 _ t h3) 0 (by norm_num)]
      have h1 : round2 1 = 1 := by exact_mod_cast round2_intCast 1
      have h2 : round2 2 = 2 := by exact_mod_cast round2_intCast 2
      have h3' : round2 3 = 3 := by exact_mod_cast round2_intCast 3
      simp [List.enum, List.enumFrom, h1, h2, h3']
    · intro i h1 h7
      rw [bucketD_format_ok 123 _ t h3 _ (format_ok 123 _ t h3) i h7]
      have hdrop : ([(a, 1), (b, 2), (c, 3)] : PVPowerSeries).drop (i * 24) = [] := by
        apply List.drop_eq_nil_of_le
        simp
        omega
      dsimp only
      rw [hdrop]
      rfl

/-- Witness for C3 at the empty series (the embedded concrete example is
part of the conclusion). -/
theorem positional_bucketing_witness :
    ([] : PVPowerSeries).length ≤ 168 ∧
    ((∃ r, format_forecast_response 1 [] 0 = Except.ok r ∧
      ∀ i : ℕ, i < 7 →
        (bucketD r i).forecast
          = ((([] : PVPowerSeries).drop (24 * i)).take 24).enum.map (fun p =>
            { ts_day := 0 + (i : ℤ), ts_hour := p.1, power_kw := round2 p.2.2 })) ∧
    (∀ s' : PVPowerSeries, ([] : PVPowerSeries).map Prod.snd = s'.map Prod.snd →
      format_forecast_response 1 [] 0 = format_forecast_response 1 s' 0) ∧
    (∀ a b c : ℤ,
      ∃ r, format_forecast_response 123 [(a, 1), (b, 2), (c, 3)] 0 = Except.ok r ∧
        r.total_energy_kwh = 6 ∧ r.forecast_hours = 3 ∧
        (bucketD r 0).forecast =
          [{ ts_day := 0, ts_hour := 0, power_kw := 1 },
           { ts_day := 0, ts_hour := 1, power_kw := 2 },
           { ts_day := 0, ts_hour := 2, power_kw := 3 }] ∧
        ∀ i : ℕ, 1 ≤ i → i < 7 → (bucketD r i).forecast = [])) :=
  ⟨by decide, positional_bucketing 1 [] 0 (by decide)⟩

/-- The total of a ≤ 168-element list, rounded at output, differs from the
rounded sum of the seven rounded 24-block sums by at most 9/200: one half
cent for the total, one for the re-rounding, and one per block. -/
lemma round2_total_vs_rounded_blocks (l : List ℚ) (hlen : l.length ≤ 7 * 24) :
    |round2 l.sum
        - round2 (((List.range 7).map
            (fun i => round2 ((l.drop (i * 24)).take 24).sum)).sum)| ≤ 9 / 200 := by
  have hsum : ((List.range 7).map (fun i => ((l.drop (i * 24)).take 24).sum)).sum
      = l.sum := sum_range_block_sums 24 7 l hlen
  have h1 : ∀ i : ℕ, |round2 ((l.drop (i * 24)).take 24).sum
      - ((l.drop (i * 24)).take 24).sum| ≤ 1 / 200 := fun i => abs_round2_sub _
  have h2 := abs_map_range_sum_sub (fun i => round2 ((l.drop (i * 24)).take 24).sum)
    (fun i => ((l.drop (i * 24)).take 24).sum) (1 / 200) 7 h1
  rw [hsum] at h2
  generalize hS : ((List.range 7).map
    (fun i => round2 ((l.drop (i * 24)).take 24).sum)).sum = S at h2 ⊢
  generalize hT : l.sum = T at h2 ⊢
  have h3 := abs_round2_sub T
  have h4 := abs_round2_sub S
  have i1 := abs_sub_le (round2 T) T (round2 S)
  have i2 := abs_sub_le T S (round2 S)
  have e1 : |T - S| = |S - T| := abs_sub_comm T S
  have e2 : |S - round2 S| = |round2 S - S| := abs_sub_comm S (round2 S)
  linarith

/-- C6: on every accepted series the report's total_energy_kwh agrees with
the rounded sum of the 7 buckets' daily_energy_kwh values up to rounding
tolerance, here at most 9/200 = 0.045 (each daily value is itself rounded
to 2 decimals before summing). -/
theorem energy_additivity (system_id : ℤ) (s : PVPowerSeries) (t : ℤ)
    (h : s.length ≤ 168) :
    ∃ r, format_forecast_response system_id s t = Except.ok r ∧
      |r.total_energy_kwh
          - round2 ((r.forecast_list.map DayBucket.daily_energy_kwh).sum)| ≤ 9 / 200 := by
  refine ⟨_, format_ok system_id s t h, ?_⟩
  dsimp only
  rw [List.map_map]
  show |round2 (calculate_energy_kwh s)
      - round2 (((List.range 7).map (fun (i : ℕ) =>
          round2 ((((s.drop (i * 24)).take 24).map Prod.snd).sum))).sum)| ≤ 9 / 200
  have hslice : ∀ i : ℕ, ((s.drop (i * 24)).take 24).map Prod.snd
      = (((s.map Prod.snd).drop (i * 24)).take 24) := by
    intro i
    simp
  simp only [hslice]
  have hcalc : calculate_energy_kwh s = (s.map Prod.snd).sum := rfl
  rw [hcalc]
  exact round2_total_vs_rounded_blocks (s.map Prod.snd) (by simpa using h)

/-- Witness for C6 at a one-sample series. -/
theorem energy_additivity_witness :
    ([(0, 1)] : PVPowerSeries).length ≤ 168 ∧
    ∃ r, format_forecast_response 11 [(0, 1)] 0 = Except.ok r ∧
      |r.total_energy_kwh
          - round2 ((r.forecast_list.map DayBucket.daily_energy_kwh).sum)| ≤ 9 / 200 :=
  ⟨by decide, energy_additivity 11 [(0, 1)] 0 (by decide)⟩

/-- Projecting the displayed powers out of a bucket's hour entries gives
the slice's values, each rounded independently. -/
lemma enum_map_power (m : PVPowerSeries) (d : ℤ) :
    (m.enum.map (fun p =>
        ({ ts_day := d, ts_hour := p.1, power_kw := round2 p.2.2 } : HourEntry))).map
      HourEntry.power_kw = (m.map Prod.snd).map round2 := by
  rw [List.map_map]
  show m.enum.map (fun p => round2 p.2.2) = (m.map Prod.snd).map round2
  have key : m.enum.map (fun p => round2 p.2.2)
      = ((m.map Prod.snd).enum).map (fun q => round2 q.2) := by
    rw [List.enum_map, List.map_map]
    rfl
  rw [key]
  have key2 : (fun q : ℕ × ℚ => round2 q.2) = round2 ∘ Prod.snd := rfl
  rw [key2, ← List.map_map, List.enum_map_snd]

/-- C10: each bucket's daily_energy_kwh is the unrounded slice sum rounded
once, while each displayed power_kw is rounded independently; consequently
daily_energy_kwh need not equal the sum of the displayed powers, as the
two-sample series [0.004, 0.004] shows (daily 0.01 vs displayed sum 0). -/
theorem rounding_placement (system_id : ℤ) (s : PVPowerSeries) (t : ℤ)
    (h : s.length ≤ 168) :
    (∃ r, format_forecast_response system_id s t = Except.ok r ∧
      ∀ i : ℕ, i < 7 →
        (bucketD r i).daily_energy_kwh
            = round2 ((((s.drop (24 * i)).take 24).map Prod.snd).sum) ∧
        (bucketD r i).forecast.map HourEntry.power_kw
            = (((s.drop (24 * i)).take 24).map Prod.snd).map round2) ∧
    ∃ r2, format_forecast_response system_id [(0, 1 / 250), (0, 1 / 250)] t = Except.ok r2 ∧
      (bucketD r2 0).daily_energy_kwh
        ≠ ((bucketD r2 0).forecast.map HourEntry.power_kw).sum := by
  have hq1 : round2 (1 / 250) = 0 := by
    rw [round2_eq_round]
    norm_num [round_eq]
  refine ⟨⟨_, format_ok system_id s t h, ?_⟩, ?_⟩
  · intro i hi
    rw [bucketD_format_ok system_id s t h _ (format_ok system_id s t h) i hi]
    dsimp only
    rw [Nat.mul_comm 24 i]
    exact ⟨rfl, enum_map_power _ _⟩
  · have h2 : ([(0, 1 / 250), (0, 1 / 250)] : PVPowerSeries).length ≤ 168 := by simp
    refine ⟨_, format_ok system_id _ t h2, ?_⟩
    rw [bucketD_format_ok system_id _ t h2 _ (format_ok system_id _ t h2) 0 (by norm_num)]
    dsimp only
    have hdaily : round2 (((([(0, 1 / 250), (0, 1 / 250)] : PVPowerSeries).drop
        (0 * 24)).take 24).map Prod.snd).sum = 1 / 100 := by
      have hsum : (((([(0, 1 / 250), (0, 1 / 250)] : PVPowerSeries).drop
          (0 * 24)).take 24).map Prod.snd).sum = 1 / 125 := by
        simp
        norm_num
      rw [hsum, round2_eq_round]
      norm_num [round_eq]
    rw [hdaily, enum_map_power]
    have hq1' : round2 ((250 : ℚ)⁻¹) = 0 := by
      rw [← one_div]
      exact hq1
    have hpow : (((([(0, 1 / 250), (0, 1 / 250)] : PVPowerSeries).drop
        (0 * 24)).take 24).map Prod.snd).map round2 = [0, 0] := by
      simp [hq1, hq1']
    rw [hpow]
    norm_num

/-- Witness for C10 at the empty series (the differing-sums example is
part of the conclusion). -/
theorem rounding_placement_witness :
    ([] : PVPowerSeries).length ≤ 168 ∧
    ((∃ r, format_forecast_response 2 [] 0 = Except.ok r ∧
      ∀ i : ℕ, i < 7 →
        (bucketD r i).daily_energy_kwh
            = round2 (((([] : PVPowerSeries).drop (24 * i)).take 24).map Prod.snd).sum ∧
        (bucketD r i).forecast.map HourEntry.power_kw
            = (((([] : PVPowerSeries).drop (24 * i)).take 24).map Prod.snd).map round2) ∧
    ∃ r2, format_forecast_response 2 [(0, 1 / 250), (0, 1 / 250)] 0 = Except.ok r2 ∧
      (bucketD r2 0).daily_energy_kwh
        ≠ ((bucketD r2 0).forecast.map HourEntry.power_kw).sum) :=
  ⟨by decide, rounding_placement 2 [] 0 (by decide)⟩
